import Mathlib

/-!
Verification of the `TwoCaptchaSolver` client (`twocaptcha.py`).

The file gives a shallow embedding of the solver: Python/JSON values become
`PyVal`, dictionary access and comparisons follow Python semantics (a failed
comparison or attribute access raises, modelled as `Except Unit`), the network
is an oracle supplying the create-task response and the stream of poll
responses, and the two phases `_create_task` / `_get_task_result` plus the
driver `solve` are translated line by line.  A run records the value produced,
how many poll requests were issued, the request bodies, and the sleeps.
-/

namespace TwoCaptcha

/-- Python values as they appear after `response.json()`: `None`, booleans,
integers, strings, dictionaries (association lists) and lists. -/
inductive PyVal where
  | none : PyVal
  | bool (b : Bool) : PyVal
  | int (n : Int) : PyVal
  | str (s : String) : PyVal
  | dict (fields : List (String × PyVal)) : PyVal
  | list (items : List PyVal) : PyVal

/-- First value bound to `key` in a dictionary's field list, if any. -/
def lookupField : List (String × PyVal) → String → Option PyVal
  | [], _ => Option.none
  | (k, v) :: rest, key => if k = key then some v else lookupField rest key

/-- Python `d.get(key)`: the stored value, or `None` when absent.  Raises
(`AttributeError`) when the receiver is not a dictionary. -/
def pyGet : PyVal → String → Except Unit PyVal
  | .dict fs, k => .ok ((lookupField fs k).getD .none)
  | _, _ => .error ()

/-- Python `d.get(key, default)` with an explicit default. -/
def pyGetD : PyVal → String → PyVal → Except Unit PyVal
  | .dict fs, k, d => .ok ((lookupField fs k).getD d)
  | _, _, _ => .error ()

/-- Python `v > m` against an integer: defined for numbers (`bool` is an `int`
subclass in Python, `True` comparing as 1), a `TypeError` otherwise. -/
def pyGtInt : PyVal → Int → Except Unit Bool
  | .int n, m => .ok (decide (n > m))
  | .bool b, m => .ok (decide ((if b then (1 : Int) else 0) > m))
  | _, _ => .error ()

/-- Python `v == m` against an integer: never raises; `bool` compares as an
integer, values of other types are simply unequal. -/
def pyEqInt : PyVal → Int → Bool
  | .int n, m => decide (n = m)
  | .bool b, m => decide ((if b then (1 : Int) else 0) = m)
  | _, _ => false

/-- Python `v == s` against a string: never raises. -/
def pyEqStr : PyVal → String → Bool
  | .str s, t => s == t
  | _, _ => false

/-- Python truthiness: `None`, `False`, `0`, `""`, `{}`, `[]` are falsy. -/
def pyTruthy : PyVal → Bool
  | .none => false
  | .bool b => b
  | .int n => n != 0
  | .str s => s != ""
  | .dict fs => !fs.isEmpty
  | .list xs => !xs.isEmpty

/-- Solver configuration, the constructor arguments kept on `self`. -/
structure Config where
  api_key : String
  max_retries : Nat
  retry_interval : Nat

/-- The JSON payload `_create_task` posts to `createTask` (lines 93-104):
client key, task type, website URL, site key, and the user agent when given. -/
def createTaskPayload (cfg : Config) (url sitekey : String)
    (user_agent : Option String) : PyVal :=
  let task : List (String × PyVal) :=
    [("type", .str "TurnstileTaskProxyless"),
     ("websiteURL", .str url),
     ("websiteKey", .str sitekey)]
  let task := match user_agent with
    | some ua => task ++ [("userAgent", .str ua)]
    | Option.none => task
  .dict [("clientKey", .str cfg.api_key), ("task", .dict task)]

/-- `_create_task` (lines 83-135), applied to the network's response.  A
transport fault or JSON decode failure is `.error ()`.  The body returns
`result.get("taskId")` when `result.get("errorId") == 0` and `None`
otherwise; any exception inside the `try` is caught and yields `None`. -/
def createTask (resp : Except Unit PyVal) : PyVal :=
  match resp with
  | .error _ => .none
  | .ok result =>
    match pyGet result "errorId" with
    | .error _ => .none
    | .ok eid =>
      if pyEqInt eid 0 then
        match pyGet result "taskId" with
        | .error _ => .none
        | .ok tid => tid
      else
        .none

/-- What one iteration of the `_get_task_result` loop does after the HTTP
round trip: return a value from the function, sleep and continue, or fall
through to the next iteration without sleeping. -/
inductive Step where
  | ret (v : PyVal) : Step
  | sleepCont : Step
  | fallCont : Step

/-- The `try` body of one poll attempt (lines 156-178), given the parsed
response.  Exceptions (`.error`) propagate to the handler. -/
def attemptBody (result : PyVal) : Except Unit Step :=
  match pyGet result "errorId" with
  | .error e => .error e
  | .ok eid =>
    match pyGtInt eid 0 with
    | .error e => .error e
    | .ok true => .ok (.ret .none)
    | .ok false =>
      match pyGet result "status" with
      | .error e => .error e
      | .ok status =>
        if pyEqStr status "ready" then
          match pyGetD result "solution" (.dict []) with
          | .error e => .error e
          | .ok sol =>
            match pyGet sol "token" with
            | .error e => .error e
            | .ok tok => .ok (.ret tok)
        else if pyEqStr status "processing" then
          .ok .sleepCont
        else
          .ok .fallCont

/-- One full poll attempt: a transport fault, a JSON decode failure, or any
exception in the body is caught by the `except` handler, which returns
`None` (lines 180-183). -/
def attemptStep (resp : Except Unit PyVal) : Step :=
  match resp with
  | .error _ => .ret .none
  | .ok result =>
    match attemptBody result with
    | .error _ => .ret .none
    | .ok s => s

/-- Observable trace of `_get_task_result`: the returned value, the number of
poll requests issued, the `{clientKey, taskId}` body sent with each request,
and the sleep durations in order. -/
structure PollTrace where
  result : PyVal
  requests : Nat
  bodies : List (String × PyVal)
  sleeps : List Nat

/-- The `for attempt in range(1, max_retries + 1)` loop of `_get_task_result`
(lines 145-187).  `fuel` is the number of attempts left; `polls i` is the
outcome of the `i`-th HTTP round trip (0-based).  When the loop exhausts its
range the function returns `None` (line 187). -/
def pollLoop (apiKey : String) (taskId : PyVal) (interval : Nat)
    (polls : Nat → Except Unit PyVal) (start : Nat) : Nat → PollTrace
  | 0 => ⟨.none, 0, [], []⟩
  | fuel + 1 =>
    match attemptStep (polls start) with
    | .ret v => ⟨v, 1, [(apiKey, taskId)], []⟩
    | .sleepCont =>
      let rest := pollLoop apiKey taskId interval polls (start + 1) fuel
      ⟨rest.result, rest.requests + 1, (apiKey, taskId) :: rest.bodies,
        interval :: rest.sleeps⟩
    | .fallCont =>
      let rest := pollLoop apiKey taskId interval polls (start + 1) fuel
      ⟨rest.result, rest.requests + 1, (apiKey, taskId) :: rest.bodies,
        rest.sleeps⟩

/-- `_get_task_result` (lines 137-187): the request body `data` is built once
from the client key and the task id and reused for every attempt. -/
def getTaskResult (cfg : Config) (taskId : PyVal)
    (polls : Nat → Except Unit PyVal) : PollTrace :=
  pollLoop cfg.api_key taskId cfg.retry_interval polls 0 cfg.max_retries

/-- Message of the `TwoCaptchaSolverError` raised when task creation fails
(line 71). -/
def createFailMsg : String := "创建验证码任务失败"

/-- Message of the `TwoCaptchaSolverError` raised when fetching the result
fails (line 76). -/
def pollFailMsg : String := "获取验证码结果失败"

/-- Observable trace of one `solve` call: the returned token or the raised
error's message, plus the poll-request trace. -/
structure SolveRun where
  outcome : Except String PyVal
  pollRequests : Nat
  pollBodies : List (String × PyVal)
  sleeps : List Nat

/-- `solve` (lines 44-81): create the task; if the returned id is falsy raise
the creation error without ever polling; otherwise poll, and if the returned
token is falsy raise the polling error, else return the token unchanged. -/
def solve (cfg : Config) (createResp : Except Unit PyVal)
    (polls : Nat → Except Unit PyVal) : SolveRun :=
  let task_id := createTask createResp
  if pyTruthy task_id then
    let tr := getTaskResult cfg task_id polls
    if pyTruthy tr.result then
      ⟨.ok tr.result, tr.requests, tr.bodies, tr.sleeps⟩
    else
      ⟨.error pollFailMsg, tr.requests, tr.bodies, tr.sleeps⟩
  else
    ⟨.error createFailMsg, 0, [], []⟩

/-! ### The values `_get_task_result` can return -/

/-- The shapes a returned "token" can take when the vendor's `solution.token`
is, as the API documents, a string whenever present: `None` or a string. -/
def tokenLike (v : PyVal) : Prop :=
  v = .none ∨ ∃ s, v = .str s

/-- The poll stream only ever supplies string tokens (the API's declared
shape): whenever a response is a dictionary whose `solution` evaluates to a
dictionary, the `token` drawn from it is `None` or a string. -/
def tokensWellTyped (polls : Nat → Except Unit PyVal) : Prop :=
  ∀ i fs gs, polls i = .ok (.dict fs) →
    (lookupField fs "solution").getD (.dict []) = .dict gs →
    tokenLike ((lookupField gs "token").getD .none)

/-! ### Concrete vendor responses used for evaluation -/

/-- The Pending poll response of the structured API. -/
def pendingResp : Except Unit PyVal :=
  .ok (.dict [("errorId", .int 0), ("status", .str "processing")])

/-- A Ready poll response carrying the token `TOKEN_XYZ`. -/
def readyResp : Except Unit PyVal :=
  .ok (.dict [("errorId", .int 0), ("status", .str "ready"),
    ("solution", .dict [("token", .str "TOKEN_XYZ")])])

/-- A vendor-rejection poll response with an error description. -/
def rejectResp : Except Unit PyVal :=
  .ok (.dict [("errorId", .int 1),
    ("errorDescription", .str "ERROR_CAPTCHA_UNSOLVABLE")])

/-- A poll response with `errorId` 0 and a `status` matching no branch. -/
def oddStatusResp : Except Unit PyVal :=
  .ok (.dict [("errorId", .int 0), ("status", .str "unknown")])

/-- A poll response lacking the `errorId` field altogether. -/
def noEidResp : Except Unit PyVal :=
  .ok (.dict [("status", .str "processing")])

/-- A successful create-task response with task id `abc123`. -/
def createOk : Except Unit PyVal :=
  .ok (.dict [("errorId", .int 0), ("taskId", .str "abc123")])

/-- A second successful create-task response with a different task id. -/
def createOk2 : Except Unit PyVal :=
  .ok (.dict [("errorId", .int 0), ("taskId", .str "xyz789")])

/-- Configuration with two retries and a five-second interval. -/
def cfg2 : Config := ⟨"KEY", 2, 5⟩

/-- Configuration with the source's defaults: 20 retries, 5-second interval. -/
def cfg20 : Config := ⟨"KEY", 20, 5⟩

/-- Poll stream of the spec's Variant-B scenario: processing once, then
ready with `TOKEN_XYZ`. -/
def pollsScenario : Nat → Except Unit PyVal :=
  fun i => if i = 0 then pendingResp else readyResp

/-! ### Response-shape predicates -/

/-- The Pending indicator of the API: a dictionary whose `errorId` is `0` and
whose `status` is `"processing"`. -/
def isPending (resp : Except Unit PyVal) : Prop :=
  ∃ fs, resp = .ok (.dict fs) ∧
    lookupField fs "errorId" = some (.int 0) ∧
    lookupField fs "status" = some (.str "processing")

/-- A Ready response carrying token `t`: `errorId` is `0`, `status` is
`"ready"`, and `solution` is a dictionary whose `token` is the string `t`. -/
def isReadyTok (resp : Except Unit PyVal) (t : String) : Prop :=
  ∃ fs, resp = .ok (.dict fs) ∧
    lookupField fs "errorId" = some (.int 0) ∧
    lookupField fs "status" = some (.str "ready") ∧
    ∃ gs, lookupField fs "solution" = some (.dict gs) ∧
      lookupField gs "token" = some (.str t)

/-- A silently-skipped response: `errorId` is `0` but `status` is neither
`"ready"` nor `"processing"`. -/
def isFallthrough (resp : Except Unit PyVal) : Prop :=
  ∃ fs, resp = .ok (.dict fs) ∧
    lookupField fs "errorId" = some (.int 0) ∧
    pyEqStr ((lookupField fs "status").getD .none) "ready" = false ∧
    pyEqStr ((lookupField fs "status").getD .none) "processing" = false

/-- A value that is not a Python number (neither `int` nor `bool`, Python
booleans being an `int` subclass that compares as a number). -/
def notNum (v : PyVal) : Prop :=
  (∀ n : Int, v ≠ .int n) ∧ (∀ b : Bool, v ≠ .bool b)

/-- A response whose `errorId` field is absent or not a number, so that the
`errorId > 0` comparison raises a `TypeError`. -/
def isBadErrorId (resp : Except Unit PyVal) : Prop :=
  ∃ fs, resp = .ok (.dict fs) ∧
    (lookupField fs "errorId" = Option.none ∨
      ∃ e, lookupField fs "errorId" = some e ∧ notNum e)

/-! ### Bridge lemmas: response shapes to attempt steps -/

theorem attemptStep_pending {r : Except Unit PyVal} (h : isPending r) :
    attemptStep r = .sleepCont := by
  obtain ⟨fs, rfl, he, hs⟩ := h
  simp [attemptStep, attemptBody, pyGet, pyGtInt, pyEqStr, he, hs]

theorem attemptStep_ready {r : Except Unit PyVal} {t : String}
    (h : isReadyTok r t) : attemptStep r = .ret (.str t) := by
  obtain ⟨fs, rfl, he, hs, gs, hsol, htok⟩ := h
  simp [attemptStep, attemptBody, pyGet, pyGetD, pyGtInt, pyEqStr, he, hs,
    hsol, htok]

theorem attemptStep_fallthrough {r : Except Unit PyVal}
    (h : isFallthrough r) : attemptStep r = .fallCont := by
  obtain ⟨fs, rfl, he, hr, hp⟩ := h
  simp [attemptStep, attemptBody, pyGet, pyGtInt, he, hr, hp]

theorem pyGtInt_notNum {v : PyVal} (h : notNum v) (m : Int) :
    pyGtInt v m = .error () := by
  obtain ⟨hi, hb⟩ := h
  cases v with
  | int n => exact absurd rfl (hi n)
  | bool b => exact absurd rfl (hb b)
  | none => rfl
  | str s => rfl
  | dict fs => rfl
  | list xs => rfl

theorem attemptStep_badErrorId {r : Except Unit PyVal}
    (h : isBadErrorId r) : attemptStep r = .ret .none := by
  obtain ⟨fs, rfl, h⟩ := h
  cases h with
  | inl habs =>
      simp [attemptStep, attemptBody, pyGet, habs, pyGtInt]
  | inr h =>
      obtain ⟨e, he, hnum⟩ := h
      simp [attemptStep, attemptBody, pyGet, he, pyGtInt_notNum hnum]

theorem attemptStep_transport : attemptStep (.error ()) = .ret .none := rfl

/-! ### Loop lemmas -/

theorem pollLoop_all_pending (apiKey : String) (taskId : PyVal)
    (interval : Nat) (polls : Nat → Except Unit PyVal)
    (hp : ∀ i, isPending (polls i)) :
    ∀ fuel start, pollLoop apiKey taskId interval polls start fuel =
      ⟨.none, fuel, List.replicate fuel (apiKey, taskId),
        List.replicate fuel interval⟩ := by
  intro fuel
  induction fuel with
  | zero => intro start; rfl
  | succ f ih =>
      intro start
      simp only [pollLoop, attemptStep_pending (hp start), ih (start + 1)]
      simp [List.replicate_succ]

theorem pollLoop_pending_prefix (apiKey : String) (taskId : PyVal)
    (interval : Nat) (polls : Nat → Except Unit PyVal) (v : PyVal) :
    ∀ j fuel start, j < fuel →
      (∀ i, i < j → isPending (polls (start + i))) →
      attemptStep (polls (start + j)) = .ret v →
      pollLoop apiKey taskId interval polls start fuel =
        ⟨v, j + 1, List.replicate (j + 1) (apiKey, taskId),
          List.replicate j interval⟩ := by
  intro j
  induction j with
  | zero =>
      intro fuel start hlt _ hret
      match fuel, hlt with
      | f + 1, _ =>
        rw [Nat.add_zero] at hret
        simp only [pollLoop, hret]
        simp [List.replicate]
  | succ n ih =>
      intro fuel start hlt hpre hret
      match fuel, hlt with
      | f + 1, hlt =>
        have h0 : isPending (polls start) := by
          have h := hpre 0 (Nat.succ_pos n)
          simpa using h
        have hrec := ih f (start + 1) (Nat.lt_of_succ_lt_succ hlt)
          (fun i hi => by
            have h := hpre (i + 1) (Nat.succ_lt_succ hi)
            have he : start + (i + 1) = start + 1 + i := by omega
            rwa [he] at h)
          (by
            have he : start + (n + 1) = start + 1 + n := by omega
            rwa [he] at hret)
        simp only [pollLoop, attemptStep_pending h0, hrec]
        simp [List.replicate_succ]

theorem pollLoop_fallthrough_prefix (apiKey : String) (taskId : PyVal)
    (interval : Nat) (polls : Nat → Except Unit PyVal) (v : PyVal) :
    ∀ j fuel start, j < fuel →
      (∀ i, i < j → isFallthrough (polls (start + i))) →
      attemptStep (polls (start + j)) = .ret v →
      pollLoop apiKey taskId interval polls start fuel =
        ⟨v, j + 1, List.replicate (j + 1) (apiKey, taskId), []⟩ := by
  intro j
  induction j with
  | zero =>
      intro fuel start hlt _ hret
      match fuel, hlt with
      | f + 1, _ =>
        rw [Nat.add_zero] at hret
        simp only [pollLoop, hret]
        simp [List.replicate]
  | succ n ih =>
      intro fuel start hlt hpre hret
      match fuel, hlt with
      | f + 1, hlt =>
        have h0 : isFallthrough (polls start) := by
          have h := hpre 0 (Nat.succ_pos n)
          simpa using h
        have hrec := ih f (start + 1) (Nat.lt_of_succ_lt_succ hlt)
          (fun i hi => by
            have h := hpre (i + 1) (Nat.succ_lt_succ hi)
            have he : start + (i + 1) = start + 1 + i := by omega
            rwa [he] at h)
          (by
            have he : start + (n + 1) = start + 1 + n := by omega
            rwa [he] at hret)
        simp only [pollLoop, attemptStep_fallthrough h0, hrec]
        simp [List.replicate_succ]

theorem pollLoop_all_fallthrough (apiKey : String) (taskId : PyVal)
    (interval : Nat) (polls : Nat → Except Unit PyVal)
    (hp : ∀ i, isFallthrough (polls i)) :
    ∀ fuel start, pollLoop apiKey taskId interval polls start fuel =
      ⟨.none, fuel, List.replicate fuel (apiKey, taskId), []⟩ := by
  intro fuel
  induction fuel with
  | zero => intro start; rfl
  | succ f ih =>
      intro start
      simp only [pollLoop, attemptStep_fallthrough (hp start), ih (start + 1)]
      simp [List.replicate_succ]

theorem pollLoop_bodies (apiKey : String) (taskId : PyVal) (interval : Nat)
    (polls : Nat → Except Unit PyVal) :
    ∀ fuel start b,
      b ∈ (pollLoop apiKey taskId interval polls start fuel).bodies →
      b = (apiKey, taskId) := by
  intro fuel
  induction fuel with
  | zero => intro start b hb; simp [pollLoop] at hb
  | succ f ih =>
      intro start b hb
      simp only [pollLoop] at hb
      cases hstep : attemptStep (polls start) with
      | ret v =>
          rw [hstep] at hb
          simpa using hb
      | sleepCont =>
          rw [hstep] at hb
          simp only [List.mem_cons] at hb
          cases hb with
          | inl h => exact h
          | inr h => exact ih (start + 1) b h
      | fallCont =>
          rw [hstep] at hb
          simp only [List.mem_cons] at hb
          cases hb with
          | inl h => exact h
          | inr h => exact ih (start + 1) b h

theorem pollLoop_nonterminal_prefix (apiKey : String) (taskId : PyVal)
    (interval : Nat) (polls : Nat → Except Unit PyVal) (v : PyVal) :
    ∀ j fuel start, j < fuel →
      (∀ i, i < j → attemptStep (polls (start + i)) = .sleepCont ∨
        attemptStep (polls (start + i)) = .fallCont) →
      attemptStep (polls (start + j)) = .ret v →
      (pollLoop apiKey taskId interval polls start fuel).result = v ∧
      (pollLoop apiKey taskId interval polls start fuel).requests = j + 1 := by
  intro j
  induction j with
  | zero =>
      intro fuel start hlt _ hret
      match fuel, hlt with
      | f + 1, _ =>
        rw [Nat.add_zero] at hret
        simp [pollLoop, hret]
  | succ n ih =>
      intro fuel start hlt hpre hret
      match fuel, hlt with
      | f + 1, hlt =>
        have hrec := ih f (start + 1) (Nat.lt_of_succ_lt_succ hlt)
          (fun i hi => by
            have h := hpre (i + 1) (Nat.succ_lt_succ hi)
            have he : start + (i + 1) = start + 1 + i := by omega
            rwa [he] at h)
          (by
            have he : start + (n + 1) = start + 1 + n := by omega
            rwa [he] at hret)
        have h0 := hpre 0 (Nat.succ_pos n)
        rw [Nat.add_zero] at h0
        cases h0 with
        | inl h0 =>
            simp only [pollLoop, h0]
            exact ⟨hrec.1, by rw [hrec.2]⟩
        | inr h0 =>
            simp only [pollLoop, h0]
            exact ⟨hrec.1, by rw [hrec.2]⟩

theorem solve_trace (cfg : Config) (createResp : Except Unit PyVal)
    (polls : Nat → Except Unit PyVal)
    (hc : pyTruthy (createTask createResp) = true) :
    (solve cfg createResp polls).pollRequests =
      (getTaskResult cfg (createTask createResp) polls).requests ∧
    (solve cfg createResp polls).pollBodies =
      (getTaskResult cfg (createTask createResp) polls).bodies ∧
    (solve cfg createResp polls).sleeps =
      (getTaskResult cfg (createTask createResp) polls).sleeps := by
  simp only [solve, hc, if_true]
  cases h2 : pyTruthy (getTaskResult cfg (createTask createResp) polls).result <;>
    simp [h2]

theorem attemptBody_ret {result v : PyVal}
    (h : attemptBody result = .ok (.ret v)) :
    v = .none ∨ ∃ fs gs, result = .dict fs ∧
      (lookupField fs "solution").getD (.dict []) = .dict gs ∧
      v = (lookupField gs "token").getD .none := by
  cases result with
  | dict fs =>
      simp only [attemptBody, pyGet, pyGetD] at h
      rcases hg : pyGtInt ((lookupField fs "errorId").getD .none) 0 with e | b
      · rw [hg] at h; cases h
      · rw [hg] at h
        cases b with
        | true =>
            cases h
            exact Or.inl rfl
        | false =>
            by_cases hr :
                pyEqStr ((lookupField fs "status").getD .none) "ready" = true
            · simp only [hr, if_true] at h
              rcases hs : (lookupField fs "solution").getD (.dict []) with
                _ | _ | _ | _ | gs | _ <;> rw [hs] at h <;>
                simp only [pyGet] at h
              · cases h
              · cases h
              · cases h
              · cases h
              · refine Or.inr ⟨fs, gs, rfl, hs, ?_⟩
                cases h; rfl
              · cases h
            · simp only [hr, if_false, Bool.false_eq_true] at h
              by_cases hp :
                  pyEqStr ((lookupField fs "status").getD .none)
                    "processing" = true
              · simp only [hp, if_true] at h; cases h
              · simp only [hp, if_false, Bool.false_eq_true] at h; cases h
  | none => simp [attemptBody, pyGet] at h
  | bool b => simp [attemptBody, pyGet] at h
  | int n => simp [attemptBody, pyGet] at h
  | str s => simp [attemptBody, pyGet] at h
  | list xs => simp [attemptBody, pyGet] at h

theorem attemptStep_ret_tokenLike {r : Except Unit PyVal} {v : PyVal}
    (h : attemptStep r = .ret v)
    (hw : ∀ fs gs, r = .ok (.dict fs) →
      (lookupField fs "solution").getD (.dict []) = .dict gs →
      tokenLike ((lookupField gs "token").getD .none)) :
    tokenLike v := by
  cases r with
  | error e =>
      simp only [attemptStep] at h
      cases h
      exact Or.inl rfl
  | ok result =>
      simp only [attemptStep] at h
      rcases hb : attemptBody result with e | s
      · rw [hb] at h; cases h; exact Or.inl rfl
      · rw [hb] at h
        cases h
        rcases attemptBody_ret hb with h1 | ⟨fs, gs, rfl, hsol, rfl⟩
        · exact Or.inl h1
        · exact hw fs gs rfl hsol

theorem pollLoop_result_tokenLike (apiKey : String) (taskId : PyVal)
    (interval : Nat) (polls : Nat → Except Unit PyVal)
    (hw : tokensWellTyped polls) :
    ∀ fuel start,
      tokenLike (pollLoop apiKey taskId interval polls start fuel).result := by
  intro fuel
  induction fuel with
  | zero => intro start; exact Or.inl rfl
  | succ f ih =>
      intro start
      simp only [pollLoop]
      cases hstep : attemptStep (polls start) with
      | ret v =>
          exact attemptStep_ret_tokenLike hstep (fun fs gs hr => hw start fs gs hr)
      | sleepCont => exact ih (start + 1)
      | fallCont => exact ih (start + 1)

/-! ### Claim C1 -/

/-- C1 counterexample: with `max_retries = 2`, `retry_interval = 5` and every
poll response Pending, the claim predicts a single sleep between the two
attempts (`[5]`); the code sleeps after every Pending response, the final
attempt included, giving `[5, 5]`. -/
theorem C1_counterexample :
    (solve cfg2 createOk (fun _ => pendingResp)).sleeps = [5, 5] ∧
    ([5, 5] : List Nat) ≠ [5] := by
  exact ⟨rfl, by decide⟩

/-- C1 (amended): if every one of the first `maxRetries` poll responses is
the Pending indicator, `solve` fails with the polling error, exactly
`maxRetries` poll requests are issued, and the client sleeps
`retryIntervalSeconds` after every attempt, the final one included
(`maxRetries` sleeps in total). -/
theorem C1_pending_exhaustion (cfg : Config) (createResp : Except Unit PyVal)
    (polls : Nat → Except Unit PyVal)
    (_hmr : 1 ≤ cfg.max_retries)
    (hc : pyTruthy (createTask createResp) = true)
    (hp : ∀ i, isPending (polls i)) :
    (solve cfg createResp polls).outcome = .error pollFailMsg ∧
    (solve cfg createResp polls).pollRequests = cfg.max_retries ∧
    (solve cfg createResp polls).sleeps =
      List.replicate cfg.max_retries cfg.retry_interval := by
  have hloop := pollLoop_all_pending cfg.api_key (createTask createResp)
    cfg.retry_interval polls hp cfg.max_retries 0
  simp only [solve, hc, if_true, getTaskResult, hloop]
  simp [pyTruthy]

/-- C1 witness: the amended statement evaluated at `max_retries = 2`,
`retry_interval = 5` with an all-Pending poll stream. -/
theorem C1_pending_exhaustion_witness :
    (solve cfg2 createOk (fun _ => pendingResp)).outcome =
        .error pollFailMsg ∧
    (solve cfg2 createOk (fun _ => pendingResp)).pollRequests =
        cfg2.max_retries ∧
    (solve cfg2 createOk (fun _ => pendingResp)).sleeps =
        List.replicate cfg2.max_retries cfg2.retry_interval :=
  C1_pending_exhaustion cfg2 createOk (fun _ => pendingResp)
    (by decide) rfl (fun _ => ⟨_, rfl, rfl, rfl⟩)

/-! ### Claim C3 -/

/-- C3: when the create-task response is a rejection (`errorId > 0`) or
carries no `taskId`, `solve` raises the creation-phase error and issues
zero poll requests. -/
theorem C3_creation_failure (cfg : Config) (fs : List (String × PyVal))
    (polls : Nat → Except Unit PyVal)
    (h : (∃ n : Int, 0 < n ∧ lookupField fs "errorId" = some (.int n)) ∨
      (lookupField fs "errorId" = some (.int 0) ∧
        lookupField fs "taskId" = Option.none)) :
    (solve cfg (.ok (.dict fs)) polls).outcome = .error createFailMsg ∧
    (solve cfg (.ok (.dict fs)) polls).pollRequests = 0 ∧
    (solve cfg (.ok (.dict fs)) polls).pollBodies = [] := by
  have hid : createTask (.ok (.dict fs)) = .none := by
    cases h with
    | inl h =>
        obtain ⟨n, hn, he⟩ := h
        simp [createTask, pyGet, he, pyEqInt]
        intro h0
        omega
    | inr h =>
        obtain ⟨he, ht⟩ := h
        simp [createTask, pyGet, he, ht, pyEqInt]
  simp [solve, hid, pyTruthy]

/-- C3 witness: the statement evaluated at a concrete rejection response
carrying `errorId = 1`. -/
theorem C3_creation_failure_witness :
    (solve cfg2 (.ok (.dict [("errorId", .int 1),
        ("errorDescription", .str "ERROR_ZERO_BALANCE")]))
      (fun _ => pendingResp)).outcome = .error createFailMsg ∧
    (solve cfg2 (.ok (.dict [("errorId", .int 1),
        ("errorDescription", .str "ERROR_ZERO_BALANCE")]))
      (fun _ => pendingResp)).pollRequests = 0 ∧
    (solve cfg2 (.ok (.dict [("errorId", .int 1),
        ("errorDescription", .str "ERROR_ZERO_BALANCE")]))
      (fun _ => pendingResp)).pollBodies = [] :=
  C3_creation_failure cfg2 _ (fun _ => pendingResp)
    (Or.inl ⟨1, by decide, rfl⟩)

/-! ### Claim C4 -/

/-- C4: if the first `k - 1` poll responses are Pending and the `k`-th is
Ready with a token, `1 ≤ k < maxRetries`, then exactly `k` poll requests are
issued and no further requests occur afterward (the loop stops at `k`,
having slept `k - 1` times). -/
theorem C4_ready_at_k (cfg : Config) (createResp : Except Unit PyVal)
    (polls : Nat → Except Unit PyVal) (k : Nat) (t : String)
    (hc : pyTruthy (createTask createResp) = true)
    (hk1 : 1 ≤ k) (hk2 : k < cfg.max_retries)
    (hpre : ∀ i, i < k - 1 → isPending (polls i))
    (hready : isReadyTok (polls (k - 1)) t) :
    (solve cfg createResp polls).pollRequests = k ∧
    (solve cfg createResp polls).sleeps =
      List.replicate (k - 1) cfg.retry_interval := by
  have hloop := pollLoop_pending_prefix cfg.api_key (createTask createResp)
    cfg.retry_interval polls (.str t) (k - 1) cfg.max_retries 0
    (by omega)
    (fun i hi => by rw [Nat.zero_add]; exact hpre i hi)
    (by rw [Nat.zero_add]; exact attemptStep_ready hready)
  obtain ⟨-, hb, hs⟩ := solve_trace cfg createResp polls hc
  obtain ⟨hr, -, -⟩ := solve_trace cfg createResp polls hc
  refine ⟨?_, ?_⟩
  · rw [hr, getTaskResult, hloop]
    simp only
    omega
  · rw [hs, getTaskResult, hloop]

/-- C4 witness: the spec's Variant-B scenario (Pending once, then Ready with
`TOKEN_XYZ`) at `k = 2` under the default 20-retry configuration. -/
theorem C4_ready_at_k_witness :
    (solve cfg20 createOk pollsScenario).pollRequests = 2 ∧
    (solve cfg20 createOk pollsScenario).sleeps =
      List.replicate 1 cfg20.retry_interval :=
  C4_ready_at_k cfg20 createOk pollsScenario 2 "TOKEN_XYZ" rfl
    (by decide) (by decide)
    (fun i hi => by
      have h0 : i = 0 := by omega
      subst h0
      exact ⟨_, rfl, rfl, rfl⟩)
    ⟨_, rfl, rfl, rfl, _, rfl, rfl⟩

/-! ### Claim C2 -/

/-- C2: (1) when creation succeeds, the first `j` poll responses are Pending
and response `j` (0-based, within the retry budget) is Ready with a
non-empty token `t`, `solve` returns exactly `.str t`, unmodified; (2) for
every run whose poll stream supplies only string-shaped tokens, `solve`
yields the creation error, the polling error, or a non-empty token string —
never an empty or default token. -/
theorem C2_token_exact :
    (∀ (cfg : Config) (createResp : Except Unit PyVal)
        (polls : Nat → Except Unit PyVal) (j : Nat) (t : String),
      pyTruthy (createTask createResp) = true →
      j < cfg.max_retries →
      (∀ i, i < j → isPending (polls i)) →
      isReadyTok (polls j) t →
      t ≠ "" →
      (solve cfg createResp polls).outcome = .ok (.str t)) ∧
    (∀ (cfg : Config) (createResp : Except Unit PyVal)
        (polls : Nat → Except Unit PyVal),
      tokensWellTyped polls →
      (solve cfg createResp polls).outcome = .error createFailMsg ∨
      (solve cfg createResp polls).outcome = .error pollFailMsg ∨
      ∃ s, s ≠ "" ∧ (solve cfg createResp polls).outcome = .ok (.str s)) := by
  constructor
  · intro cfg createResp polls j t hc hj hpre hready hne
    have hgr : getTaskResult cfg (createTask createResp) polls =
        ⟨.str t, j + 1,
          List.replicate (j + 1) (cfg.api_key, createTask createResp),
          List.replicate j cfg.retry_interval⟩ :=
      pollLoop_pending_prefix cfg.api_key (createTask createResp)
        cfg.retry_interval polls (.str t) j cfg.max_retries 0 hj
        (fun i hi => by rw [Nat.zero_add]; exact hpre i hi)
        (by rw [Nat.zero_add]; exact attemptStep_ready hready)
    have htr : pyTruthy
        (getTaskResult cfg (createTask createResp) polls).result = true := by
      rw [hgr]
      simp [pyTruthy, hne]
    have ht2 : pyTruthy (.str t) = true := by simp [pyTruthy, hne]
    simp [solve, hc, hgr, ht2]
  · intro cfg createResp polls hw
    by_cases hc : pyTruthy (createTask createResp) = true
    · have htl : tokenLike
          (getTaskResult cfg (createTask createResp) polls).result :=
        pollLoop_result_tokenLike cfg.api_key (createTask createResp)
          cfg.retry_interval polls hw cfg.max_retries 0
      by_cases htr : pyTruthy
          (getTaskResult cfg (createTask createResp) polls).result = true
      · refine Or.inr (Or.inr ?_)
        cases htl with
        | inl h0 =>
            rw [h0] at htr
            simp [pyTruthy] at htr
        | inr h0 =>
            obtain ⟨s, hs⟩ := h0
            refine ⟨s, ?_, ?_⟩
            · rw [hs] at htr
              simpa [pyTruthy] using htr
            · have hsne : s ≠ "" := by
                rw [hs] at htr
                simpa [pyTruthy] using htr
              have ht2 : pyTruthy (.str s) = true := by
                simp [pyTruthy, hsne]
              simp [solve, hc, hs, ht2]
      · refine Or.inr (Or.inl ?_)
        simp [solve, hc, htr]
    · refine Or.inl ?_
      simp [solve, hc]

/-- C2 witness: the spec's Variant-B scenario returns exactly `TOKEN_XYZ`,
and that run's outcome is a non-empty token string. -/
theorem C2_token_exact_witness :
    (solve cfg20 createOk pollsScenario).outcome = .ok (.str "TOKEN_XYZ") ∧
    ((solve cfg20 createOk pollsScenario).outcome = .error createFailMsg ∨
      (solve cfg20 createOk pollsScenario).outcome = .error pollFailMsg ∨
      ∃ s, s ≠ "" ∧
        (solve cfg20 createOk pollsScenario).outcome = .ok (.str s)) := by
  constructor
  · exact C2_token_exact.1 cfg20 createOk pollsScenario 1 "TOKEN_XYZ" rfl
      (by decide)
      (fun i hi => by
        have h0 : i = 0 := by omega
        subst h0
        exact ⟨_, rfl, rfl, rfl⟩)
      ⟨_, rfl, rfl, rfl, _, rfl, rfl⟩
      (by decide)
  · exact C2_token_exact.2 cfg20 createOk pollsScenario
      (fun i fs gs hi hsol => by
        cases i with
        | zero =>
            have hi' : pendingResp = Except.ok (.dict fs) := hi
            simp only [pendingResp, Except.ok.injEq, PyVal.dict.injEq] at hi'
            subst hi'
            simp [lookupField] at hsol
            subst hsol
            exact Or.inl rfl
        | succ n =>
            have hi' : readyResp = Except.ok (.dict fs) := hi
            simp only [readyResp, Except.ok.injEq, PyVal.dict.injEq] at hi'
            subst hi'
            simp [lookupField] at hsol
            subst hsol
            exact Or.inr ⟨"TOKEN_XYZ", rfl⟩)

/-! ### Claim C5 -/

/-- C5 counterexample: a retry-exhaustion (Timeout) run and a
vendor-rejection run produce the very same error value, so the caller
cannot tell which of the two occurred. -/
theorem C5_counterexample :
    (solve cfg2 createOk (fun _ => pendingResp)).outcome =
      (solve cfg2 createOk (fun _ => rejectResp)).outcome ∧
    (solve cfg2 createOk (fun _ => pendingResp)).outcome =
      .error pollFailMsg := ⟨rfl, rfl⟩

/-- C5 (amended): every polling failure — retry exhaustion, vendor-signaled
rejection, or transport fault alike — surfaces as the one generic polling
error; the sub-cases are indistinguishable to the caller. -/
theorem C5_uniform_polling_error (cfg : Config)
    (createResp : Except Unit PyVal) (polls : Nat → Except Unit PyVal)
    (hc : pyTruthy (createTask createResp) = true)
    (hf : pyTruthy
      (getTaskResult cfg (createTask createResp) polls).result = false) :
    (solve cfg createResp polls).outcome = .error pollFailMsg := by
  simp [solve, hc, hf]

/-- C5 witness: the amended statement evaluated on the concrete
retry-exhaustion run. -/
theorem C5_uniform_polling_error_witness :
    (solve cfg2 createOk (fun _ => pendingResp)).outcome =
      .error pollFailMsg :=
  C5_uniform_polling_error cfg2 createOk (fun _ => pendingResp) rfl rfl

/-! ### Claim C6 -/

/-- C6: a transport error or request timeout at poll attempt `k` (1-based,
`k ≤ maxRetries`, the earlier attempts having been non-terminal) makes the
run fail at once with the polling error, after exactly `k` poll requests:
none of the remaining `maxRetries - k` attempts is consumed. -/
theorem C6_transport_failfast (cfg : Config)
    (createResp : Except Unit PyVal) (polls : Nat → Except Unit PyVal)
    (k : Nat)
    (hc : pyTruthy (createTask createResp) = true)
    (hk1 : 1 ≤ k) (hk2 : k ≤ cfg.max_retries)
    (hpre : ∀ i, i < k - 1 → isPending (polls i) ∨ isFallthrough (polls i))
    (herr : polls (k - 1) = .error ()) :
    (solve cfg createResp polls).outcome = .error pollFailMsg ∧
    (solve cfg createResp polls).pollRequests = k := by
  have hloop := pollLoop_nonterminal_prefix cfg.api_key
    (createTask createResp) cfg.retry_interval polls .none (k - 1)
    cfg.max_retries 0 (by omega)
    (fun i hi => by
      rw [Nat.zero_add]
      cases hpre i hi with
      | inl h => exact Or.inl (attemptStep_pending h)
      | inr h => exact Or.inr (attemptStep_fallthrough h))
    (by rw [Nat.zero_add, herr]; rfl)
  have hres : pyTruthy
      (getTaskResult cfg (createTask createResp) polls).result = false := by
    rw [getTaskResult, hloop.1]
    rfl
  refine ⟨by simp [solve, hc, hres], ?_⟩
  obtain ⟨hr, -, -⟩ := solve_trace cfg createResp polls hc
  rw [hr, getTaskResult, hloop.2]
  omega

/-- C6 witness: a Pending response followed by a connection fault on the
second attempt, under the default 20-retry configuration. -/
theorem C6_transport_failfast_witness :
    (solve cfg20 createOk
        (fun i => if i = 0 then pendingResp else .error ())).outcome =
      .error pollFailMsg ∧
    (solve cfg20 createOk
        (fun i => if i = 0 then pendingResp else .error ())).pollRequests =
      2 :=
  C6_transport_failfast cfg20 createOk
    (fun i => if i = 0 then pendingResp else .error ()) 2 rfl
    (by decide) (by decide)
    (fun i hi => by
      have h0 : i = 0 := by omega
      subst h0
      exact Or.inl ⟨_, rfl, rfl, rfl⟩)
    rfl

/-! ### Claim C7 -/

/-- C7 counterexample: two creation rejections whose `errorDescription`
fields differ (`ERROR_ZERO_BALANCE` vs `ERROR_WRONG_USER_KEY`) yield the
identical generic error, so the error cannot carry the vendor-supplied
description (the description is only printed in verbose mode, never
attached to the raised `TwoCaptchaSolverError`). -/
theorem C7_counterexample :
    (solve cfg2 (.ok (.dict [("errorId", .int 1),
        ("errorDescription", .str "ERROR_ZERO_BALANCE")]))
      (fun _ => pendingResp)).outcome = .error createFailMsg ∧
    (solve cfg2 (.ok (.dict [("errorId", .int 1),
        ("errorDescription", .str "ERROR_WRONG_USER_KEY")]))
      (fun _ => pendingResp)).outcome = .error createFailMsg ∧
    createFailMsg ≠ "ERROR_ZERO_BALANCE" := ⟨rfl, rfl, by decide⟩

/-- C7 (amended): the error raised by `solve` always carries exactly one of
the two generic phase messages — the creation message or the polling
message — regardless of any vendor-supplied `errorDescription`; otherwise
the run returned a token. -/
theorem C7_generic_errors (cfg : Config) (createResp : Except Unit PyVal)
    (polls : Nat → Except Unit PyVal) :
    (∃ v, (solve cfg createResp polls).outcome = .ok v) ∨
    (solve cfg createResp polls).outcome = .error createFailMsg ∨
    (solve cfg createResp polls).outcome = .error pollFailMsg := by
  by_cases hc : pyTruthy (createTask createResp) = true
  · by_cases htr : pyTruthy
        (getTaskResult cfg (createTask createResp) polls).result = true
    · exact Or.inl
        ⟨(getTaskResult cfg (createTask createResp) polls).result,
          by simp [solve, hc, htr]⟩
    · exact Or.inr (Or.inr (by simp [solve, hc, htr]))
  · exact Or.inr (Or.inl (by simp [solve, hc]))

/-! ### Claim C8 -/

/-- C8: (1) every poll request body of a `solve` call is exactly the pair of
the configured API key and the handle returned by that same call's
create-task response — the handle never changes between attempts; (2) two
calls whose create responses yield different handles share no poll request
body, so a handle is never reused across calls. -/
theorem C8_handle_invariant :
    (∀ (cfg : Config) (createResp : Except Unit PyVal)
        (polls : Nat → Except Unit PyVal) (b : String × PyVal),
      b ∈ (solve cfg createResp polls).pollBodies →
      b = (cfg.api_key, createTask createResp)) ∧
    (∀ (cfg : Config) (c1 c2 : Except Unit PyVal)
        (polls1 polls2 : Nat → Except Unit PyVal) (b : String × PyVal),
      createTask c1 ≠ createTask c2 →
      b ∈ (solve cfg c1 polls1).pollBodies →
      b ∉ (solve cfg c2 polls2).pollBodies) := by
  have main : ∀ (cfg : Config) (createResp : Except Unit PyVal)
      (polls : Nat → Except Unit PyVal) (b : String × PyVal),
      b ∈ (solve cfg createResp polls).pollBodies →
      b = (cfg.api_key, createTask createResp) := by
    intro cfg createResp polls b hb
    by_cases hc : pyTruthy (createTask createResp) = true
    · obtain ⟨-, hbod, -⟩ := solve_trace cfg createResp polls hc
      rw [hbod] at hb
      exact pollLoop_bodies cfg.api_key (createTask createResp)
        cfg.retry_interval polls cfg.max_retries 0 b hb
    · simp [solve, hc] at hb
  refine ⟨main, ?_⟩
  intro cfg c1 c2 polls1 polls2 b hne hb1 hb2
  have h1 := main cfg c1 polls1 b hb1
  have h2 := main cfg c2 polls2 b hb2
  rw [h1] at h2
  exact hne (congrArg Prod.snd h2)

/-- C8 witness: a request body observed in a run against `createOk` equals
the key/handle pair of that run, and does not occur in a run against the
different handle of `createOk2`. -/
theorem C8_handle_invariant_witness :
    ("KEY", PyVal.str "abc123") = (cfg2.api_key, createTask createOk) ∧
    ("KEY", PyVal.str "abc123") ∉
      (solve cfg2 createOk2 (fun _ => pendingResp)).pollBodies := by
  have hb1 : ("KEY", PyVal.str "abc123") ∈
      (solve cfg2 createOk (fun _ => pendingResp)).pollBodies := by
    have hbod : (solve cfg2 createOk (fun _ => pendingResp)).pollBodies =
        [("KEY", .str "abc123"), ("KEY", .str "abc123")] := rfl
    rw [hbod]
    exact List.mem_cons_self _ _
  have hne : createTask createOk ≠ createTask createOk2 := by
    intro h
    rw [show createTask createOk = PyVal.str "abc123" from rfl,
      show createTask createOk2 = PyVal.str "xyz789" from rfl] at h
    injection h with h
    exact absurd h (by decide)
  exact ⟨C8_handle_invariant.1 cfg2 createOk (fun _ => pendingResp) _ hb1,
    C8_handle_invariant.2 cfg2 createOk createOk2 (fun _ => pendingResp)
      (fun _ => pendingResp) _ hne hb1⟩

/-! ### Claim C9 -/

/-- C9: a poll response with `errorId = 0` and a status that is neither
`ready` nor `processing` is skipped silently: (1) with `j` such responses
followed by a Ready one, `j + 1` requests are issued and no sleep occurs,
so each skipped response consumed one attempt and the loop moved on at
once; (2) if all `maxRetries` responses are of this shape, polling fails
with the generic polling error after `maxRetries` requests and no sleeps,
and the outcome is indistinguishable from retry exhaustion while Pending. -/
theorem C9_silent_fallthrough :
    (∀ (cfg : Config) (createResp : Except Unit PyVal)
        (polls : Nat → Except Unit PyVal) (j : Nat) (t : String),
      pyTruthy (createTask createResp) = true →
      j < cfg.max_retries →
      (∀ i, i < j → isFallthrough (polls i)) →
      isReadyTok (polls j) t →
      (solve cfg createResp polls).pollRequests = j + 1 ∧
      (solve cfg createResp polls).sleeps = []) ∧
    (∀ (cfg : Config) (createResp : Except Unit PyVal)
        (polls polls2 : Nat → Except Unit PyVal),
      pyTruthy (createTask createResp) = true →
      (∀ i, isFallthrough (polls i)) →
      (∀ i, isPending (polls2 i)) →
      (solve cfg createResp polls).outcome = .error pollFailMsg ∧
      (solve cfg createResp polls).pollRequests = cfg.max_retries ∧
      (solve cfg createResp polls).sleeps = [] ∧
      (solve cfg createResp polls).outcome =
        (solve cfg createResp polls2).outcome) := by
  constructor
  · intro cfg createResp polls j t hc hj hpre hready
    have hgr : getTaskResult cfg (createTask createResp) polls =
        ⟨.str t, j + 1,
          List.replicate (j + 1) (cfg.api_key, createTask createResp), []⟩ :=
      pollLoop_fallthrough_prefix cfg.api_key (createTask createResp)
        cfg.retry_interval polls (.str t) j cfg.max_retries 0 hj
        (fun i hi => by rw [Nat.zero_add]; exact hpre i hi)
        (by rw [Nat.zero_add]; exact attemptStep_ready hready)
    obtain ⟨hr, -, hs⟩ := solve_trace cfg createResp polls hc
    rw [hr, hs, hgr]
    exact ⟨rfl, rfl⟩
  · intro cfg createResp polls polls2 hc hfall hpend
    have hgr : getTaskResult cfg (createTask createResp) polls =
        ⟨.none, cfg.max_retries,
          List.replicate cfg.max_retries (cfg.api_key, createTask createResp),
          []⟩ :=
      pollLoop_all_fallthrough cfg.api_key (createTask createResp)
        cfg.retry_interval polls hfall cfg.max_retries 0
    have hgr2 : getTaskResult cfg (createTask createResp) polls2 =
        ⟨.none, cfg.max_retries,
          List.replicate cfg.max_retries (cfg.api_key, createTask createResp),
          List.replicate cfg.max_retries cfg.retry_interval⟩ :=
      pollLoop_all_pending cfg.api_key (createTask createResp)
        cfg.retry_interval polls2 hpend cfg.max_retries 0
    have h1 : (solve cfg createResp polls).outcome = .error pollFailMsg := by
      simp [solve, hc, hgr, show pyTruthy PyVal.none = false from rfl]
    have h2 : (solve cfg createResp polls2).outcome = .error pollFailMsg := by
      simp [solve, hc, hgr2, show pyTruthy PyVal.none = false from rfl]
    obtain ⟨hr, -, hs⟩ := solve_trace cfg createResp polls hc
    refine ⟨h1, ?_, ?_, h1.trans h2.symm⟩
    · rw [hr, hgr]
    · rw [hs, hgr]

/-- C9 witness: one `status = "unknown"` response followed by a Ready one
gives two requests and no sleep; an all-`unknown` stream under two retries
fails exactly like an all-Pending one. -/
theorem C9_silent_fallthrough_witness :
    ((solve cfg20 createOk
        (fun i => if i = 0 then oddStatusResp else readyResp)).pollRequests =
          2 ∧
      (solve cfg20 createOk
        (fun i => if i = 0 then oddStatusResp else readyResp)).sleeps = []) ∧
    ((solve cfg2 createOk (fun _ => oddStatusResp)).outcome =
        .error pollFailMsg ∧
      (solve cfg2 createOk (fun _ => oddStatusResp)).pollRequests =
        cfg2.max_retries ∧
      (solve cfg2 createOk (fun _ => oddStatusResp)).sleeps = [] ∧
      (solve cfg2 createOk (fun _ => oddStatusResp)).outcome =
        (solve cfg2 createOk (fun _ => pendingResp)).outcome) := by
  constructor
  · exact C9_silent_fallthrough.1 cfg20 createOk
      (fun i => if i = 0 then oddStatusResp else readyResp) 1 "TOKEN_XYZ" rfl
      (by decide)
      (fun i hi => by
        have h0 : i = 0 := by omega
        subst h0
        exact ⟨_, rfl, rfl, rfl, rfl⟩)
      ⟨_, rfl, rfl, rfl, _, rfl, rfl⟩
  · exact C9_silent_fallthrough.2 cfg2 createOk (fun _ => oddStatusResp)
      (fun _ => pendingResp) rfl
      (fun i => ⟨_, rfl, rfl, rfl, rfl⟩)
      (fun i => ⟨_, rfl, rfl, rfl⟩)

/-! ### Claim C10 -/

/-- C10: a poll response whose `errorId` field is absent or not a number
makes the `errorId > 0` comparison raise; the handler catches it, so with
such a response at attempt `k` (earlier attempts non-terminal) the run
fails at once with the polling error after exactly `k` requests — no crash
and no retry. -/
theorem C10_bad_errorId (cfg : Config) (createResp : Except Unit PyVal)
    (polls : Nat → Except Unit PyVal) (k : Nat)
    (hc : pyTruthy (createTask createResp) = true)
    (hk1 : 1 ≤ k) (hk2 : k ≤ cfg.max_retries)
    (hpre : ∀ i, i < k - 1 → isPending (polls i) ∨ isFallthrough (polls i))
    (hbad : isBadErrorId (polls (k - 1))) :
    (solve cfg createResp polls).outcome = .error pollFailMsg ∧
    (solve cfg createResp polls).pollRequests = k := by
  have hloop := pollLoop_nonterminal_prefix cfg.api_key
    (createTask createResp) cfg.retry_interval polls .none (k - 1)
    cfg.max_retries 0 (by omega)
    (fun i hi => by
      rw [Nat.zero_add]
      cases hpre i hi with
      | inl h => exact Or.inl (attemptStep_pending h)
      | inr h => exact Or.inr (attemptStep_fallthrough h))
    (by rw [Nat.zero_add]; exact attemptStep_badErrorId hbad)
  have hres : pyTruthy
      (getTaskResult cfg (createTask createResp) polls).result = false := by
    rw [getTaskResult, hloop.1]
    rfl
  refine ⟨by simp [solve, hc, hres], ?_⟩
  obtain ⟨hr, -, -⟩ := solve_trace cfg createResp polls hc
  rw [hr, getTaskResult, hloop.2]
  omega

/-- C10 witness: a first response lacking `errorId` entirely fails the run
on the first attempt. -/
theorem C10_bad_errorId_witness :
    (solve cfg20 createOk (fun _ => noEidResp)).outcome =
      .error pollFailMsg ∧
    (solve cfg20 createOk (fun _ => noEidResp)).pollRequests = 1 :=
  C10_bad_errorId cfg20 createOk (fun _ => noEidResp) 1 rfl
    (by decide) (by decide)
    (fun i hi => by omega)
    ⟨_, rfl, Or.inl rfl⟩

end TwoCaptcha
